import Mathlib

/-!
Verification of `passport-google-oidc-token` (src/src/index.ts), a Passport
strategy that authenticates Google ID tokens.

The embedding models the JavaScript semantics the code relies on:
truthiness of values, short-circuiting `&&` / `||`, the `done`-callback
dispatch, and the `try`/`catch` structure of `authenticate`.  Handler
invocations (`this.error` / `this.fail` / `this.success`) are recorded as a
trace, and the external verification engine (`client.verifyIdToken`) and the
caller-supplied verification function are parameters describing their
observable behaviour for the single call being analysed.
-/

namespace GoogleOIDCToken

/-- A JavaScript runtime value, as far as the strategy inspects one:
the code only ever branches on truthiness and passes values through.
`errV` is an `Error` object (always truthy), `objV` an arbitrary other
object (always truthy), tagged by an identifier so that distinct objects
stay distinct. -/
inductive JSVal where
  | undef
  | nullV
  | boolV (b : Bool)
  | strV (s : String)
  | numV (n : Int)
  | errV (msg : String)
  | objV (id : Nat)
deriving Repr, DecidableEq

/-- JavaScript truthiness: `undefined`, `null`, `false`, `""` and `0` are
falsy; every object (including `Error`s) is truthy. -/
def truthy : JSVal → Bool
  | .undef => false
  | .nullV => false
  | .boolV b => b
  | .strV s => s ≠ ""
  | .numV n => n ≠ 0
  | .errV _ => true
  | .objV _ => true

/-- JavaScript `a || b`: yields `a` when `a` is truthy, otherwise `b`. -/
def jsOr (a b : JSVal) : JSVal := if truthy a then a else b

/-- JavaScript `a && b`: yields `b` when `a` is truthy, otherwise `a`. -/
def jsAnd (a b : JSVal) : JSVal := if truthy a then b else a

/-- One of the three indexable containers on an express request
(`req.body`, `req.query`, `req.headers`): the value of the container
expression itself (it may be `undefined`), and the result of indexing it
by a field name. Indexing is only reached when the container is truthy,
because `lookup` guards it with `&&`. -/
structure Container where
  self : JSVal
  index : String → JSVal

/-- The request shape consumed by the strategy: an object exposing
`body`, `query` and `headers`. -/
structure Request where
  body : Container
  query : Container
  headers : Container

/-- `lookup` (src/src/index.ts:171-177):
`(req.body && req.body[field]) || (req.query && req.query[field]) ||
 (req.headers && req.headers[field])`. -/
def lookup (req : Request) (field : String) : JSVal :=
  jsOr (jsAnd req.body.self (req.body.index field))
    (jsOr (jsAnd req.query.self (req.query.index field))
      (jsAnd req.headers.self (req.headers.index field)))

/-- The value yielded by the body location: `req.body && req.body[field]`. -/
def bodyVal (req : Request) (field : String) : JSVal :=
  jsAnd req.body.self (req.body.index field)

/-- The value yielded by the query location: `req.query && req.query[field]`. -/
def queryVal (req : Request) (field : String) : JSVal :=
  jsAnd req.query.self (req.query.index field)

/-- The value yielded by the headers location: `req.headers && req.headers[field]`. -/
def headersVal (req : Request) (field : String) : JSVal :=
  jsAnd req.headers.self (req.headers.index field)

/-- The claims payload returned by `ticket.getPayload()` (google-auth-library
`TokenPayload`), restricted to the fields `parseProfile` reads.  `sub` is
required by the upstream type; the optional claims are JS values so that an
absent claim is `undef` and present-but-falsy values keep their JS
behaviour. -/
structure TokenPayload where
  sub : String
  name : JSVal
  given_name : JSVal
  family_name : JSVal
  email : JSVal
  email_verified : JSVal
  picture : JSVal
deriving Repr, DecidableEq

/-- The structured-name record assigned to `profile.name`
(src/src/index.ts:209-212); both casts `as string` are value-preserving at
runtime, so an absent claim stays `undefined`. -/
structure NameRec where
  familyName : JSVal
  givenName : JSVal
deriving Repr, DecidableEq

/-- An entry of `profile.emails` (src/src/index.ts:217-220); the cast
`as boolean` on `email_verified` is value-preserving at runtime. -/
structure EmailEntry where
  value : JSVal
  verified : JSVal
deriving Repr, DecidableEq

/-- The normalized `Profile` record built by `parseProfile`
(src/src/index.ts:198-206): `name := undefined` is `none`. -/
structure Profile where
  provider : String
  id : String
  displayName : JSVal
  name : Option NameRec
  photos : List JSVal
  emails : List EmailEntry
  json : TokenPayload
deriving Repr, DecidableEq

/-- `parseProfile` (src/src/index.ts:197-233): builds the base record, then
conditionally fills `name`, `emails` and `photos` from the claims. -/
def parseProfile (payload : TokenPayload) : Profile :=
  let profile : Profile :=
    { provider := "google"
      id := payload.sub
      displayName := jsOr payload.name (.strV "")
      name := none
      photos := []
      emails := []
      json := payload }
  let profile :=
    if truthy payload.family_name || truthy payload.given_name then
      { profile with name := some ⟨payload.family_name, payload.given_name⟩ }
    else profile
  let profile :=
    if truthy payload.email then
      { profile with emails := [⟨payload.email, payload.email_verified⟩] }
    else profile
  if truthy payload.picture then
    { profile with photos := [payload.picture] }
  else profile

/-- The `info` argument of the `done` callback: `{message: string}` or
`undefined` (`none`). -/
structure Info where
  message : String
deriving Repr, DecidableEq

/-- One recorded invocation of an outcome handler: `this.error(e)`,
`this.fail(info)` or `this.success(user, info)`. -/
inductive HandlerCall where
  | errorCall (e : JSVal)
  | failCall (info : Option Info)
  | successCall (user : JSVal) (info : Option Info)
deriving Repr, DecidableEq

/-- `verifiedFunction` (src/src/index.ts:126-136), the completion callback
handed to the verification function.  Returns the trace of handler calls one
invocation of the callback produces:
`if (error) return this.error(error); if (!user) return this.fail(info);
 return this.success(user, info);`. -/
def verifiedFunction (error user : JSVal) (info : Option Info) : List HandlerCall :=
  if truthy error then [.errorCall error]
  else if !truthy user then [.failCall info]
  else [.successCall user info]

/-- One invocation `done(error, user, info)` made by the caller-supplied
verification function. -/
structure DoneArgs where
  error : JSVal
  user : JSVal
  info : Option Info
deriving Repr, DecidableEq

/-- The observable behaviour of one run of the caller-supplied verification
function: the `done` calls it makes, in order, and — when `thrown` is
`some e` — the exception it throws after them (which the `catch` in
`authenticate` then receives). -/
structure VerifyRun where
  doneCalls : List DoneArgs
  thrown : Option JSVal
deriving Repr

/-- The arguments `authenticate` passes to the verification function
(src/src/index.ts:143-158): with the request prepended when
`_passReqToCallback` is set, without it otherwise. -/
inductive VerifyInvocation where
  | withReq (req : Request) (accessToken refreshToken : String) (profile : Profile)
  | withoutReq (accessToken refreshToken : String) (profile : Profile)

/-- The access-token argument of a verify invocation. -/
def VerifyInvocation.accessToken : VerifyInvocation → String
  | .withReq _ a _ _ => a
  | .withoutReq a _ _ => a

/-- The refresh-token argument of a verify invocation. -/
def VerifyInvocation.refreshToken : VerifyInvocation → String
  | .withReq _ _ r _ => r
  | .withoutReq _ r _ => r

/-- The observable result of one call to `authenticate`: whether (and how)
the verification function was invoked, and the trace of outcome-handler
invocations. -/
structure AuthResult where
  verifyCalled : Option VerifyInvocation
  handlers : List HandlerCall

/-- The behaviour of `await this.client.verifyIdToken(...)` followed by
`ticket.getPayload()` for the call under analysis: either the awaited call
rejects/throws with `e`, or it yields a ticket whose payload is
`some`/`none` (`getPayload()` may return `undefined`). -/
inductive EngineResult where
  | engineThrows (e : JSVal)
  | payloadResult (payload : Option TokenPayload)

/-- The branch at src/src/index.ts:143-158: the verification function is
called with `(req, accessToken, refreshToken, profile, verifiedFunction)`
when `_passReqToCallback` is set, and with
`(accessToken, refreshToken, profile, verifiedFunction)` otherwise, where
`accessToken = "123"` and `refreshToken = "234"`
(src/src/index.ts:138-139). -/
def mkInvocation (req : Request) (passReq : Bool) (profile : Profile) : VerifyInvocation :=
  if passReq then .withReq req "123" "234" profile
  else .withoutReq "123" "234" profile

/-- Runs the caller-supplied verification function on its arguments: each
`done` call it makes dispatches through `verifiedFunction`; when the
function throws, the `catch` at src/src/index.ts:159-161 appends
`this.error(err)`. -/
def runVerify (inv : VerifyInvocation) (verify : VerifyInvocation → VerifyRun) : AuthResult :=
  let run := verify inv
  let calls := (run.doneCalls.map fun c => verifiedFunction c.error c.user c.info).flatten
  match run.thrown with
  | some e => ⟨some inv, calls ++ [.errorCall e]⟩
  | none => ⟨some inv, calls⟩

/-- The body of the `try` block of `authenticate` (src/src/index.ts:115-161)
together with its `catch`: an engine rejection is caught and reported via
`this.error`; a missing payload raises `new Error("No payload returned")`
(src/src/index.ts:122-124) which the same `catch` reports; otherwise the
payload is mapped by `parseProfile` and the verification function is
invoked. -/
def authenticateCore (req : Request) (passReq : Bool) (engine : EngineResult)
    (verify : VerifyInvocation → VerifyRun) : AuthResult :=
  match engine with
  | .engineThrows e => ⟨none, [.errorCall e]⟩
  | .payloadResult none => ⟨none, [.errorCall (.errV "No payload returned")]⟩
  | .payloadResult (some payload) =>
      runVerify (mkInvocation req passReq (parseProfile payload)) verify

/-- `authenticate` (src/src/index.ts:112-162) with the evaluation of the
token lookup made explicit.  The statement
`const idToken = this.lookup(req, "id_token")` at src/src/index.ts:113 sits
BEFORE the `try` block, so when evaluating it throws (in JavaScript a
property getter or proxy on `req.body`/`req.query`/`req.headers` can throw)
the exception escapes `authenticate` as a rejected promise instead of being
routed to `this.error`; this is the `Except.error` branch.  When the lookup
evaluates normally, its value is fed to the engine and the `try` block
runs. -/
def authenticateWithLookup (lookupRes : Except JSVal JSVal) (req : Request)
    (passReq : Bool) (engine : JSVal → EngineResult)
    (verify : VerifyInvocation → VerifyRun) : Except JSVal AuthResult :=
  match lookupRes with
  | .error e => .error e
  | .ok idToken => .ok (authenticateCore req passReq (engine idToken) verify)

/-- `authenticate` (src/src/index.ts:112-162) for a request whose containers
are plain data (the normal case, where the lookup expression evaluates
without throwing): the token is located with `lookup`, then the `try` block
runs. -/
def authenticate (req : Request) (passReq : Bool) (engine : JSVal → EngineResult)
    (verify : VerifyInvocation → VerifyRun) : AuthResult :=
  authenticateCore req passReq (engine (lookup req "id_token")) verify

/-- The strategy options: `clientID` plus the optional `passReqToCallback`
field — `none` models the field being absent from the options object
(`"passReqToCallback" in options` is false). -/
structure StrategyOptions where
  clientID : String
  passReqToCallback : Option Bool
deriving Repr, DecidableEq

/-- The computation of `_passReqToCallback` in the constructor
(src/src/index.ts:104-105):
`"passReqToCallback" in options ? options.passReqToCallback : false`. -/
def mkPassReqToCallback (options : StrategyOptions) : Bool :=
  match options.passReqToCallback with
  | some b => b
  | none => false

/-! ### Concrete fixtures used by witnesses and counterexamples -/

/-- A claims payload with every optional claim present. -/
def samplePayload : TokenPayload :=
  { sub := "108017110634"
    name := .strV "Ada Lovelace"
    given_name := .strV "Ada"
    family_name := .strV "Lovelace"
    email := .strV "ada@example.com"
    email_verified := .boolV true
    picture := .strV "https://example.com/p.jpg" }

/-- A claims payload with every optional claim absent (`undefined`). -/
def barePayload : TokenPayload :=
  { sub := "42"
    name := .undef
    given_name := .undef
    family_name := .undef
    email := .undef
    email_verified := .undef
    picture := .undef }

/-- A request whose body holds an id token and whose other containers are
empty objects. -/
def sampleReq : Request :=
  { body := ⟨.objV 0, fun _ => .strV "tok"⟩
    query := ⟨.objV 1, fun _ => .undef⟩
    headers := ⟨.objV 2, fun _ => .undef⟩ }

/-- A request carrying a distinct truthy `id_token` value in body, query and
headers simultaneously. -/
def reqAll : Request :=
  { body := ⟨.objV 0, fun _ => .strV "tokBody"⟩
    query := ⟨.objV 1, fun _ => .strV "tokQuery"⟩
    headers := ⟨.objV 2, fun _ => .strV "tokHeader"⟩ }

/-- A verification function that calls `done(null, user, undefined)` exactly
once and returns. -/
def sampleVerify : VerifyInvocation → VerifyRun :=
  fun _ => ⟨[⟨.nullV, .objV 7, none⟩], none⟩

/-- A verification function that returns without ever calling `done` —
legal JavaScript for the caller to write. -/
def silentVerify : VerifyInvocation → VerifyRun :=
  fun _ => ⟨[], none⟩

/-- A verification function that throws without calling `done`. -/
def throwingVerify : VerifyInvocation → VerifyRun :=
  fun _ => ⟨[], some (.errV "verify threw")⟩

/-! ### Helper lemmas -/

/-- Every invocation of the completion callback records exactly one handler
call. -/
theorem verifiedFunction_length (error user : JSVal) (info : Option Info) :
    (verifiedFunction error user info).length = 1 := by
  unfold verifiedFunction
  rcases truthy error <;> rcases truthy user <;> simp

/-- Regardless of what the verification function does, `runVerify` records
that it was invoked with the given arguments. -/
theorem runVerify_verifyCalled (inv : VerifyInvocation)
    (verify : VerifyInvocation → VerifyRun) :
    (runVerify inv verify).verifyCalled = some inv := by
  unfold runVerify
  cases h : (verify inv).thrown <;> simp [h]

/-- A run that makes exactly one `done` call and does not throw records
exactly one handler call. -/
theorem runVerify_handlers_length (inv : VerifyInvocation)
    (verify : VerifyInvocation → VerifyRun)
    (h1 : ((verify inv).doneCalls).length = 1)
    (h2 : (verify inv).thrown = none) :
    ((runVerify inv verify).handlers).length = 1 := by
  unfold runVerify
  rcases List.length_eq_one.mp h1 with ⟨c, hc⟩
  simp [h2, hc, verifiedFunction_length]

/-- `jsOr` keeps a truthy left operand. -/
theorem jsOr_truthy_left (a b : JSVal) (h : truthy a = true) : jsOr a b = a := by
  simp [jsOr, h]

/-- `jsOr` falls through a falsy left operand. -/
theorem jsOr_falsy_left (a b : JSVal) (h : truthy a = false) : jsOr a b = b := by
  simp [jsOr, h]

/-- A truthy `jsAnd` must have taken its right operand. -/
theorem jsAnd_truthy_eq (a b : JSVal) (h : truthy (jsAnd a b) = true) :
    jsAnd a b = b := by
  unfold jsAnd at h ⊢
  rcases ha : truthy a <;> simp [ha] at h ⊢

/-- The locator expression grouped by location. -/
theorem lookup_eq (req : Request) (field : String) :
    lookup req field
      = jsOr (bodyVal req field)
          (jsOr (queryVal req field) (headersVal req field)) := rfl

/-! ### Claim theorems -/

/-- C1: every invocation of the completion callback with `(error, user, info)`
invokes exactly one handler: Error with `error` when `error` is truthy, Fail
with `info` when `error` is falsy and `user` is falsy, and Success with
`user` and `info` when `error` is falsy and `user` is truthy. -/
theorem verifiedFunction_dispatch (error user : JSVal) (info : Option Info) :
    (verifiedFunction error user info).length = 1 ∧
    (truthy error = true →
      verifiedFunction error user info = [.errorCall error]) ∧
    (truthy error = false → truthy user = false →
      verifiedFunction error user info = [.failCall info]) ∧
    (truthy error = false → truthy user = true →
      verifiedFunction error user info = [.successCall user info]) := by
  unfold verifiedFunction
  rcases he : truthy error <;> rcases hu : truthy user <;> simp

/-- Witness for C1: the three dispatch cases at concrete callback
arguments. -/
theorem verifiedFunction_dispatch_witness :
    verifiedFunction (.errV "bad") (.objV 1) none = [.errorCall (.errV "bad")] ∧
    verifiedFunction .nullV .undef (some ⟨"no such user"⟩)
      = [.failCall (some ⟨"no such user"⟩)] ∧
    verifiedFunction .nullV (.objV 7) none = [.successCall (.objV 7) none] :=
  ⟨(verifiedFunction_dispatch (.errV "bad") (.objV 1) none).2.1 rfl,
   (verifiedFunction_dispatch .nullV .undef (some ⟨"no such user"⟩)).2.2.1 rfl rfl,
   (verifiedFunction_dispatch .nullV (.objV 7) none).2.2.2 rfl rfl⟩

/-- C5: the token locator returns the first truthy value in the order body,
query, headers — in particular the body value when all three yield truthy
values — and returns a falsy (empty/undefined) result when none of the three
yields a truthy value. -/
theorem lookup_priority (req : Request) (field : String) :
    (truthy (bodyVal req field) = true →
      lookup req field = req.body.index field) ∧
    (truthy (bodyVal req field) = false → truthy (queryVal req field) = true →
      lookup req field = req.query.index field) ∧
    (truthy (bodyVal req field) = false → truthy (queryVal req field) = false →
      truthy (headersVal req field) = true →
      lookup req field = req.headers.index field) ∧
    (truthy (bodyVal req field) = false → truthy (queryVal req field) = false →
      truthy (headersVal req field) = false →
      truthy (lookup req field) = false) := by
  refine ⟨?_, ?_, ?_, ?_⟩
  · intro hb
    rw [lookup_eq, jsOr_truthy_left _ _ hb]
    exact jsAnd_truthy_eq _ _ hb
  · intro hb hq
    rw [lookup_eq, jsOr_falsy_left _ _ hb, jsOr_truthy_left _ _ hq]
    exact jsAnd_truthy_eq _ _ hq
  · intro hb hq hh
    rw [lookup_eq, jsOr_falsy_left _ _ hb, jsOr_falsy_left _ _ hq]
    exact jsAnd_truthy_eq _ _ hh
  · intro hb hq hh
    rw [lookup_eq, jsOr_falsy_left _ _ hb, jsOr_falsy_left _ _ hq]
    exact hh

/-- Witness for C5: with `id_token` present and truthy in body, query and
headers simultaneously, the locator returns the body value. -/
theorem lookup_priority_witness :
    lookup reqAll "id_token" = .strV "tokBody" :=
  (lookup_priority reqAll "id_token").1 (by decide)

/-- C7: when the email claim is falsy/absent the profile has an empty email
list; when it is truthy/present the profile has a one-element email list
carrying the email value and the verified flag taken verbatim from the
`email_verified` claim. -/
theorem parseProfile_emails (payload : TokenPayload) :
    (truthy payload.email = false → (parseProfile payload).emails = []) ∧
    (truthy payload.email = true →
      (parseProfile payload).emails
        = [⟨payload.email, payload.email_verified⟩]) := by
  constructor <;> intro h <;> unfold parseProfile <;>
    split <;> simp [h] <;> split <;> simp

/-- Witness for C7: a payload without email yields no email entry; a payload
with email yields exactly one entry with value and verified flag. -/
theorem parseProfile_emails_witness :
    (parseProfile barePayload).emails = [] ∧
    (parseProfile samplePayload).emails
      = [⟨.strV "ada@example.com", .boolV true⟩] :=
  ⟨(parseProfile_emails barePayload).1 rfl,
   (parseProfile_emails samplePayload).2 (by decide)⟩

/-- C8: with both `family_name` and `given_name` claims present the profile
name carries both; with exactly one present the profile name is set with the
other component left `undefined`; with neither present the profile name is
unset (`none`). -/
theorem parseProfile_name (payload : TokenPayload) :
    (truthy payload.family_name = true → truthy payload.given_name = true →
      (parseProfile payload).name
        = some ⟨payload.family_name, payload.given_name⟩) ∧
    (truthy payload.family_name = true → payload.given_name = .undef →
      (parseProfile payload).name = some ⟨payload.family_name, .undef⟩) ∧
    (payload.family_name = .undef → truthy payload.given_name = true →
      (parseProfile payload).name = some ⟨.undef, payload.given_name⟩) ∧
    (payload.family_name = .undef → payload.given_name = .undef →
      (parseProfile payload).name = none) := by
  refine ⟨?_, ?_, ?_, ?_⟩ <;> intro h1 h2 <;> unfold parseProfile <;>
    split <;> simp_all [truthy] <;> split <;> simp_all <;> split <;> simp_all

/-- Witness for C8: the four presence combinations at concrete payloads. -/
theorem parseProfile_name_witness :
    (parseProfile samplePayload).name
      = some ⟨.strV "Lovelace", .strV "Ada"⟩ ∧
    (parseProfile { barePayload with family_name := .strV "Lovelace" }).name
      = some ⟨.strV "Lovelace", .undef⟩ ∧
    (parseProfile { barePayload with given_name := .strV "Ada" }).name
      = some ⟨.undef, .strV "Ada"⟩ ∧
    (parseProfile barePayload).name = none :=
  ⟨(parseProfile_name samplePayload).1 (by decide) (by decide),
   (parseProfile_name _).2.1 (by decide) rfl,
   (parseProfile_name _).2.2.1 rfl (by decide),
   (parseProfile_name barePayload).2.2.2 rfl rfl⟩

/-- C10: when the email claim is truthy/present but `email_verified` is
absent (`undefined`), the single email entry has `verified = undefined` —
the flag is copied verbatim, not defaulted to `false`. -/
theorem parseProfile_email_verified_undefined (payload : TokenPayload)
    (h1 : truthy payload.email = true)
    (h2 : payload.email_verified = .undef) :
    (parseProfile payload).emails = [⟨payload.email, .undef⟩] := by
  unfold parseProfile
  split <;> simp_all <;> split <;> simp_all

/-- Witness for C10: email present, `email_verified` absent, at a concrete
payload. -/
theorem parseProfile_email_verified_undefined_witness :
    (parseProfile { barePayload with email := .strV "ada@example.com" }).emails
      = [⟨.strV "ada@example.com", .undef⟩] :=
  parseProfile_email_verified_undefined _ (by decide) rfl

/-- C2: when the verification engine rejects/throws, or succeeds but yields
no claims payload, `authenticate` invokes the Error handler with the failure
cause and nothing else — Success and Fail are never invoked and the
caller-supplied verification function is never called. -/
theorem authenticate_engine_failure (req : Request) (passReq : Bool)
    (engine : JSVal → EngineResult) (verify : VerifyInvocation → VerifyRun) :
    (∀ e, engine (lookup req "id_token") = .engineThrows e →
      authenticate req passReq engine verify
        = ⟨none, [.errorCall e]⟩) ∧
    (engine (lookup req "id_token") = .payloadResult none →
      authenticate req passReq engine verify
        = ⟨none, [.errorCall (.errV "No payload returned")]⟩) := by
  constructor
  · intro e h
    unfold authenticate
    rw [h]
    rfl
  · intro h
    unfold authenticate
    rw [h]
    rfl

/-- Witness for C2: a simulated engine rejection at a concrete request. -/
theorem authenticate_engine_failure_witness :
    authenticate sampleReq false
      (fun _ => .engineThrows (.errV "invalid signature")) sampleVerify
      = ⟨none, [.errorCall (.errV "invalid signature")]⟩ :=
  (authenticate_engine_failure sampleReq false
    (fun _ => .engineThrows (.errV "invalid signature")) sampleVerify).1
    (.errV "invalid signature") rfl

/-- Counterexample for C3: with a successful engine result and a
verification function that returns without ever calling the completion
callback, `authenticate` completes with an empty handler trace — no outcome
handler is invoked at all, contradicting the claim that exactly one handler
is always invoked whatever the verification function does. -/
theorem authenticate_exactly_once_cex :
    (authenticate sampleReq false
      (fun _ => .payloadResult (some samplePayload)) silentVerify).handlers
      = [] := rfl

/-- C3 (amended): `authenticate` invokes exactly one outcome handler exactly
once, provided that the caller-supplied verification function, when it is
reached, calls the completion callback exactly once and does not throw; for
engine failures and missing payloads this holds unconditionally. -/
theorem authenticate_exactly_once (req : Request) (passReq : Bool)
    (engine : JSVal → EngineResult) (verify : VerifyInvocation → VerifyRun)
    (hv : ∀ inv, ((verify inv).doneCalls).length = 1 ∧ (verify inv).thrown = none) :
    ((authenticate req passReq engine verify).handlers).length = 1 := by
  unfold authenticate
  rcases h : engine (lookup req "id_token") with e | op
  · rfl
  · rcases op with _ | payload
    · rfl
    · exact runVerify_handlers_length _ verify (hv _).1 (hv _).2

/-- Witness for C3 (amended): a verification function that calls the
completion callback exactly once yields exactly one handler invocation. -/
theorem authenticate_exactly_once_witness :
    ((authenticate sampleReq false
      (fun _ => .payloadResult (some samplePayload)) sampleVerify).handlers).length
      = 1 :=
  authenticate_exactly_once sampleReq false
    (fun _ => .payloadResult (some samplePayload)) sampleVerify
    (fun _ => ⟨rfl, rfl⟩)

/-- Counterexample for C4: the token lookup is evaluated BEFORE the `try`
block (src/src/index.ts:113), so an exception raised while evaluating it is
not caught inside `authenticate`: it escapes as a rejected promise and no
Error handler is invoked, contradicting the claim that exceptions thrown
during token lookup are converted into an Error-handler invocation. -/
theorem authenticate_catch_cex :
    authenticateWithLookup (.error (.errV "lookup threw")) sampleReq false
      (fun _ => .payloadResult (some samplePayload)) sampleVerify
      = .error (.errV "lookup threw") := rfl

/-- C4 (amended): once the token lookup has evaluated, no exception escapes
`authenticate`: the `try`/`catch` result is always delivered (`Except.ok`),
an engine rejection or a missing claims payload becomes a single
Error-handler invocation, and an exception thrown by the verification
function becomes a trailing Error-handler invocation; an exception raised
while evaluating the token lookup itself, however, propagates out of
`authenticate` uncaught. -/
theorem authenticate_catch (tok : JSVal) (req : Request) (passReq : Bool)
    (engine : JSVal → EngineResult) (verify : VerifyInvocation → VerifyRun) :
    (authenticateWithLookup (.ok tok) req passReq engine verify
      = .ok (authenticateCore req passReq (engine tok) verify)) ∧
    (∀ e, engine tok = .engineThrows e →
      (authenticateCore req passReq (engine tok) verify).handlers
        = [.errorCall e]) ∧
    (engine tok = .payloadResult none →
      (authenticateCore req passReq (engine tok) verify).handlers
        = [.errorCall (.errV "No payload returned")]) ∧
    (∀ payload e, engine tok = .payloadResult (some payload) →
      (verify (mkInvocation req passReq (parseProfile payload))).thrown = some e →
      ∃ pre, (authenticateCore req passReq (engine tok) verify).handlers
        = pre ++ [.errorCall e]) ∧
    (∀ e, authenticateWithLookup (.error e) req passReq engine verify
      = .error e) := by
  refine ⟨rfl, ?_, ?_, ?_, fun _ => rfl⟩
  · intro e h
    rw [h]
    rfl
  · intro h
    rw [h]
    rfl
  · intro payload e h1 h2
    rw [h1]
    simp only [authenticateCore, runVerify, h2]
    exact ⟨_, rfl⟩

/-- Witness for C4 (amended): a verification function that throws is caught
and reported through the Error handler as the final handler invocation. -/
theorem authenticate_catch_witness :
    ∃ pre, (authenticateCore sampleReq false
      (.payloadResult (some samplePayload)) throwingVerify).handlers
        = pre ++ [.errorCall (.errV "verify threw")] :=
  (authenticate_catch (.strV "tok") sampleReq false
    (fun _ => .payloadResult (some samplePayload)) throwingVerify).2.2.2.1
    samplePayload (.errV "verify threw") rfl rfl

/-- C6: on a successful verification, the verification function receives the
original request as its first argument exactly when the strategy was
constructed with `passReqToCallback` set to `true`; when the option is
absent or `false` it is invoked without the request, starting at the access
token. -/
theorem authenticate_passReqToCallback (options : StrategyOptions)
    (req : Request) (engine : JSVal → EngineResult)
    (verify : VerifyInvocation → VerifyRun) (payload : TokenPayload)
    (h : engine (lookup req "id_token") = .payloadResult (some payload)) :
    (options.passReqToCallback = some true →
      (authenticate req (mkPassReqToCallback options) engine verify).verifyCalled
        = some (.withReq req "123" "234" (parseProfile payload))) ∧
    ((options.passReqToCallback = none ∨ options.passReqToCallback = some false) →
      (authenticate req (mkPassReqToCallback options) engine verify).verifyCalled
        = some (.withoutReq "123" "234" (parseProfile payload))) := by
  constructor
  · intro hp
    unfold authenticate
    rw [h]
    unfold authenticateCore
    rw [runVerify_verifyCalled]
    simp [mkInvocation, mkPassReqToCallback, hp]
  · intro hp
    unfold authenticate
    rw [h]
    unfold authenticateCore
    rw [runVerify_verifyCalled]
    rcases hp with hp | hp <;> simp [mkInvocation, mkPassReqToCallback, hp]

/-- Witness for C6: both option shapes at a concrete request and payload. -/
theorem authenticate_passReqToCallback_witness :
    (authenticate sampleReq (mkPassReqToCallback ⟨"cid", some true⟩)
      (fun _ => .payloadResult (some samplePayload)) sampleVerify).verifyCalled
      = some (.withReq sampleReq "123" "234" (parseProfile samplePayload)) ∧
    (authenticate sampleReq (mkPassReqToCallback ⟨"cid", none⟩)
      (fun _ => .payloadResult (some samplePayload)) sampleVerify).verifyCalled
      = some (.withoutReq "123" "234" (parseProfile samplePayload)) :=
  ⟨(authenticate_passReqToCallback ⟨"cid", some true⟩ sampleReq
      (fun _ => .payloadResult (some samplePayload)) sampleVerify
      samplePayload rfl).1 rfl,
   (authenticate_passReqToCallback ⟨"cid", none⟩ sampleReq
      (fun _ => .payloadResult (some samplePayload)) sampleVerify
      samplePayload rfl).2 (Or.inl rfl)⟩

/-- C9: whenever `authenticate` invokes the verification function, the
access-token and refresh-token arguments are the fixed placeholder strings
"123" and "234", for every request, engine behaviour and verification
function — no real OAuth token exchange occurs. -/
theorem authenticate_placeholder_tokens (req : Request) (passReq : Bool)
    (engine : JSVal → EngineResult) (verify : VerifyInvocation → VerifyRun)
    (inv : VerifyInvocation)
    (h : (authenticate req passReq engine verify).verifyCalled = some inv) :
    inv.accessToken = "123" ∧ inv.refreshToken = "234" := by
  unfold authenticate at h
  rcases heng : engine (lookup req "id_token") with e | op
  · rw [heng] at h
    exact absurd h (by simp [authenticateCore])
  · rcases op with _ | payload
    · rw [heng] at h
      exact absurd h (by simp [authenticateCore])
    · rw [heng] at h
      unfold authenticateCore at h
      rw [runVerify_verifyCalled] at h
      obtain rfl : mkInvocation req passReq (parseProfile payload) = inv :=
        Option.some_injective _ h
      rcases passReq <;>
        simp [mkInvocation, VerifyInvocation.accessToken, VerifyInvocation.refreshToken]

/-- Witness for C9: the placeholder tokens at a concrete invocation produced
by `authenticate`. -/
theorem authenticate_placeholder_tokens_witness :
    (VerifyInvocation.withoutReq "123" "234" (parseProfile samplePayload)).accessToken
      = "123" ∧
    (VerifyInvocation.withoutReq "123" "234" (parseProfile samplePayload)).refreshToken
      = "234" :=
  authenticate_placeholder_tokens sampleReq false
    (fun _ => .payloadResult (some samplePayload)) sampleVerify
    (.withoutReq "123" "234" (parseProfile samplePayload)) rfl

end GoogleOIDCToken
